import Mathlib

/-
  Verification development for the company-chat mobile app.

  Shallow embedding of the access-control helpers (src/utils/roleHelper.js),
  the OTP generator/validator (otpGenerator module), the channel posting
  check (src/screens/Chat/ChatRoomScreen.js) and the pending-approval
  state transitions (src/screens/SuperAdmin/PendingApprovalsScreen.js).

  JavaScript conventions are modelled explicitly: nullable values are
  Option, string truthiness is non-emptiness, a JS Date value is
  Option Int (milliseconds since epoch; none stands for an Invalid Date,
  whose every ordered comparison is false because it is NaN), and a
  rejected promise caught by the surrounding try/catch is an Except error.
-/

namespace ChatApp

/-- JS truthiness of a nullable string: null/undefined and "" are falsy. -/
def jsTruthyStr : Option String → Bool
  | none => false
  | some s => !s.isEmpty

namespace OTP

/-- Return shape of verifyOTP: { valid, message }. -/
structure VerifyResult where
  valid : Bool
  message : String
  deriving DecidableEq, Repr

/-- The runtime value passed as expiresAt to verifyOTP.  The source
branches on: has a toDate method (store timestamp, always yields a valid
date), instanceof Date (possibly an Invalid Date), typeof string (parsed
with new Date, possibly yielding an Invalid Date), anything else. -/
inductive JSExpiry where
  | timestamp (ms : Int)
  | dateVal (v : Option Int)
  | strVal (parsed : Option Int)
  | otherVal
  deriving DecidableEq, Repr

/-- The expiry-normalisation chain of verifyOTP: outer none means the
final else branch (Invalid OTP expiration) is taken; inner none is an
Invalid Date (NaN time value). -/
def normExpiry : JSExpiry → Option (Option Int)
  | .timestamp ms => some (some ms)
  | .dateVal v => some v
  | .strVal p => some p
  | .otherVal => none

/-- JS comparison now > expirationDate on Date values: comparison with an
Invalid Date is a NaN comparison and is false. -/
def jsDateGt (now : Int) : Option Int → Bool
  | some ms => decide (now > ms)
  | none => false

/-- verifyOTP(enteredOTP, storedOTP, expiresAt) from the OTP module,
with the implicit clock (new Date()) passed explicitly as now. -/
def verifyOTP (enteredOTP storedOTP : String) (expiresAt : JSExpiry)
    (now : Int) : VerifyResult :=
  if enteredOTP.isEmpty || storedOTP.isEmpty then
    ⟨false, "OTP is required"⟩
  else if enteredOTP ≠ storedOTP then
    ⟨false, "Invalid OTP"⟩
  else
    match normExpiry expiresAt with
    | none => ⟨false, "Invalid OTP expiration"⟩
    | some d =>
      if jsDateGt now d then ⟨false, "OTP has expired"⟩
      else ⟨true, "OTP verified successfully"⟩

/-- generateOTP: Math.floor(100000 + Math.random() * 900000), with the
call to Math.random() passed explicitly as a rational r in [0, 1).
The numeric value before toString. -/
def generateOTPNum (r : ℚ) : ℤ := ⌊(100000 : ℚ) + r * 900000⌋

/-- getOTPExpiration: now + 5 minutes, in milliseconds. -/
def getOTPExpiration (now : Int) : Int := now + 5 * 60 * 1000

end OTP

namespace RoleHelper

/-- One entry of userData.userProjects as read by isProjectAdmin. -/
structure UPEntry where
  projectId : String
  role : String
  deriving DecidableEq, Repr

/-- The user document fields the role helpers read.  globalRole and the
userProjects array may be absent. -/
structure UserData where
  globalRole : Option String
  userProjects : Option (List UPEntry)
  deriving DecidableEq, Repr

/-- isSuperAdmin(userData): false on null, else globalRole strict
equality with the superadmin string. -/
def isSuperAdmin : Option UserData → Bool
  | none => false
  | some d => d.globalRole == some "superadmin"

/-- isProjectAdmin(userData, projectId): false on falsy arguments;
SuperAdmin is admin of all projects; otherwise look for the project in
userData.userProjects and require the project admin role. -/
def isProjectAdmin (userData : Option UserData)
    (projectId : Option String) : Bool :=
  match userData with
  | none => false
  | some d =>
    if !jsTruthyStr projectId then false
    else if isSuperAdmin (some d) then true
    else
      match (d.userProjects.getD []).find?
          (fun p => some p.projectId == projectId) with
      | some p => p.role == "project_admin"
      | none => false

/-- Error raised by a rejected store promise. -/
inductive StoreErr where
  | notFound
  | ioFailure
  deriving DecidableEq, Repr

/-- A document of the userProjects collection. -/
structure MembershipRec where
  userId : String
  projectId : String
  role : String
  isActive : Bool
  addedAt : Option Int
  deriving DecidableEq, Repr

/-- The store query of the role helpers: read the userProjects
collection filtered on userId, projectId and isActive == true.  The
whole read may instead fail (rejected promise). -/
def queryUserProjects (db : Except StoreErr (List MembershipRec))
    (uid pid : String) : Except StoreErr (List MembershipRec) :=
  db.map (List.filter
    (fun m => m.userId == uid && m.projectId == pid && m.isActive))

/-- getUserRoleInProject(userId, projectId): null on falsy arguments;
on a query error the catch block returns null; null when the snapshot is
empty; else the role field of the first document.  Note: the function
never receives userData and performs no SuperAdmin check. -/
def getUserRoleInProject (userId projectId : Option String)
    (db : Except StoreErr (List MembershipRec)) : Option String :=
  if !jsTruthyStr userId || !jsTruthyStr projectId then none
  else
    match queryUserProjects db (userId.getD "") (projectId.getD "") with
    | .error _ => none
    | .ok [] => none
    | .ok (d :: _) => some d.role

/-- hasAccessToProject(userId, projectId, userData = null): false on
falsy ids; true when userData is given and is SuperAdmin, without any
store read; else true iff the membership query is non-empty, and false
when the query fails (catch block). -/
def hasAccessToProject (userId projectId : Option String)
    (userData : Option UserData)
    (db : Except StoreErr (List MembershipRec)) : Bool :=
  if !jsTruthyStr userId || !jsTruthyStr projectId then false
  else if userData.isSome && isSuperAdmin userData then true
  else
    match queryUserProjects db (userId.getD "") (projectId.getD "") with
    | .error _ => false
    | .ok l => !l.isEmpty

end RoleHelper

namespace ChatRoom

/-- The group document fields read by ChatRoomScreen. -/
structure Group where
  projectId : String
  isChannel : Bool
  deriving DecidableEq, Repr

/-- The isProjectAdmin constant of ChatRoomScreen: some entry of the
auth-context userProjects list matches the group project with the
project admin role.  A null list or null group gives false. -/
def chatIsProjectAdmin (userProjects : Option (List RoleHelper.UPEntry))
    (g : Option Group) : Bool :=
  match userProjects, g with
  | some ups, some gr =>
    ups.any (fun up => up.projectId == gr.projectId &&
      up.role == "project_admin")
  | some _, none => false
  | none, _ => false

/-- The isSuperAdmin constant of ChatRoomScreen. -/
def chatIsSuperAdmin (userData : Option RoleHelper.UserData) : Bool :=
  match userData with
  | some d => d.globalRole == some "superadmin"
  | none => false

/-- canSendMessages: in a channel only admins, in a group anyone. -/
def canSendMessages (userProjects : Option (List RoleHelper.UPEntry))
    (userData : Option RoleHelper.UserData) (g : Option Group) : Bool :=
  match g with
  | some gr =>
    if gr.isChannel then
      chatIsProjectAdmin userProjects (some gr) || chatIsSuperAdmin userData
    else true
  | none => true

end ChatRoom

namespace Approvals

/-- The user document fields touched by approve/reject. -/
structure UserRec where
  isApproved : Bool
  approvedAt : Option Int
  deriving DecidableEq, Repr

/-- One entry of a qr invitation's pendingSignups array. -/
structure Signup where
  userId : String
  deriving DecidableEq, Repr

/-- A qrInvitations document: projectId (null means company-wide), the
pending signup list, and the isPending flag. -/
structure QRRec where
  projectId : Option String
  pendingSignups : List Signup
  isPending : Bool
  deriving DecidableEq, Repr

/-- The three collections the approval flow touches.  users and
qrInvitations are keyed documents; userProjects documents are created
with auto ids the code never reads back, so the collection is a list. -/
structure Store where
  users : List (String × UserRec)
  userProjects : List RoleHelper.MembershipRec
  qrInvitations : List (String × QRRec)
  deriving DecidableEq, Repr

/-- The pending-list item handed to approveUser / rejectUser: the user
document id, the qr invitation id, and the invitation's projectId. -/
structure PendingUser where
  id : String
  qrId : String
  projectId : Option String
  deriving DecidableEq, Repr

/-- Point read of a keyed document (doc(id).get). -/
def lookupDoc {α : Type} (docs : List (String × α)) (id : String) :
    Option α :=
  match docs with
  | [] => none
  | p :: rest => if p.1 == id then some p.2 else lookupDoc rest id

/-- In-place update of a keyed document. -/
def updateDoc {α : Type} (docs : List (String × α)) (id : String)
    (f : α → α) : List (String × α) :=
  docs.map (fun p => if p.1 == id then (p.1, f p.2) else p)

/-- users.doc(id).update({isApproved: true, approvedAt: now}): a store
update rejects with not-found when the document does not exist. -/
def usersUpdateApprove (s : Store) (uid : String) (ts : Int) :
    Except RoleHelper.StoreErr Store :=
  match lookupDoc s.users uid with
  | none => .error .notFound
  | some _ =>
    .ok { s with users := (updateDoc s.users uid
      (fun u => { u with isApproved := true, approvedAt := some ts })) }

/-- The shared tail of approve and reject: read the qr invitation; when
it exists, drop the processed user's entries from pendingSignups and
write the list back together with isPending := updated.length > 0. -/
def removeFromPending (s : Store) (qrId uid : String) : Store :=
  match lookupDoc s.qrInvitations qrId with
  | none => s
  | some qr =>
    let updated := qr.pendingSignups.filter (fun x => !(x.userId == uid))
    { s with qrInvitations := (updateDoc s.qrInvitations qrId
        (fun _ => { qr with pendingSignups := updated,
                            isPending := decide (updated.length > 0) })) }

/-- approveUser: mark the user approved (update, which rejects with
not-found on a deleted user and aborts the rest), then, when the entry
carries a truthy projectId, unconditionally add a fresh active
userProjects document with role user — there is no existence check —
then update the qr invitation pending list. -/
def approveUser (s : Store) (u : PendingUser) (ts : Int) :
    Except RoleHelper.StoreErr Store :=
  match usersUpdateApprove s u.id ts with
  | .error e => .error e
  | .ok s1 =>
    .ok (removeFromPending
      (if jsTruthyStr u.projectId then
        { s1 with userProjects := s1.userProjects ++
            [⟨u.id, u.projectId.getD "", "user", true, some ts⟩] }
       else s1)
      u.qrId u.id)

/-- rejectUser: hard-delete the user document (a store delete succeeds
whether or not the document exists), then update the qr invitation
pending list. -/
def rejectUser (s : Store) (u : PendingUser) : Store :=
  removeFromPending
    { s with users := s.users.filter (fun p => !(p.1 == u.id)) }
    u.qrId u.id

/-- Number of active membership documents for a (userId, projectId)
pair. -/
def activeMembershipCount (s : Store) (uid pid : String) : Nat :=
  (s.userProjects.filter
    (fun m => m.userId == uid && m.projectId == pid && m.isActive)).length

/-- A concrete store: one unapproved user u1, no memberships, and one qr
invitation qr1 for project p1 with a single pending signup by u1. -/
def s0ex : Store :=
  ⟨[("u1", ⟨false, none⟩)], [], [("qr1", ⟨some "p1", [⟨"u1"⟩], true⟩)]⟩

/-- The pending entry for u1 on invitation qr1, project p1. -/
def uex : PendingUser := ⟨"u1", "qr1", some "p1"⟩

/-- The store after approveUser s0ex uex 1: u1 approved, one active
membership, invitation emptied with isPending false. -/
def s1ex : Store :=
  ⟨[("u1", ⟨true, some 1⟩)], [⟨"u1", "p1", "user", true, some 1⟩],
    [("qr1", ⟨some "p1", [], false⟩)]⟩

end Approvals

end ChatApp

namespace ChatApp

open OTP

/-- C4: for equal non-empty codes and a well-formed expiry normalising to
instant ms, verifyOTP fails with the expired message exactly when
now > ms (strict), and succeeds otherwise. -/
theorem verifyOTP_expired_iff_now_gt (c : String) (hc : c.isEmpty = false)
    (exp : JSExpiry) (ms : Int) (hw : normExpiry exp = some (some ms))
    (now : Int) :
    verifyOTP c c exp now =
      if now > ms then ⟨false, "OTP has expired"⟩
      else ⟨true, "OTP verified successfully"⟩ := by
  simp only [verifyOTP, hc, Bool.or_self, Bool.false_eq_true, if_false,
    ne_eq, not_true_eq_false, hw]
  by_cases h : now > ms
  · simp [jsDateGt, h]
  · simp [jsDateGt, h]

/-- Witness for C4, on the spec scenario: code 482913 with expiry at
T+5m (300000 ms); entry at T+4m59s succeeds, at T+5m1s fails expired. -/
theorem verifyOTP_expired_iff_now_gt_witness :
    verifyOTP "482913" "482913" (.timestamp 300000) 299000 =
      ⟨true, "OTP verified successfully"⟩ ∧
    verifyOTP "482913" "482913" (.timestamp 300000) 301000 =
      ⟨false, "OTP has expired"⟩ := by
  constructor
  · have h := verifyOTP_expired_iff_now_gt "482913" (by decide)
      (.timestamp 300000) 300000 rfl 299000
    simpa using h
  · have h := verifyOTP_expired_iff_now_gt "482913" (by decide)
      (.timestamp 300000) 300000 rfl 301000
    simpa using h

/-- C5: for non-empty differing codes, verifyOTP returns the mismatch
result, whatever the expiry value is (past, absent, malformed) and
whatever the clock says. -/
theorem verifyOTP_mismatch_any_expiry (c1 c2 : String)
    (h1 : c1.isEmpty = false) (h2 : c2.isEmpty = false) (hne : c1 ≠ c2)
    (exp : JSExpiry) (now : Int) :
    verifyOTP c1 c2 exp now = ⟨false, "Invalid OTP"⟩ := by
  simp [verifyOTP, h1, h2, hne]

/-- Witness for C5, on the spec scenario: entered 482914 against stored
482913 at T+1m with a live expiry still yields the mismatch result. -/
theorem verifyOTP_mismatch_any_expiry_witness :
    verifyOTP "482914" "482913" (.timestamp 300000) 60000 =
      ⟨false, "Invalid OTP"⟩ :=
  verifyOTP_mismatch_any_expiry "482914" "482913" (by decide) (by decide)
    (by decide) (.timestamp 300000) 60000

/-- C10: for equal non-empty codes, an expiresAt string that does not
parse (Invalid Date) makes verifyOTP return valid, because
now > InvalidDate is a NaN comparison and is false; and the
Invalid OTP expiration branch is reached only for a value that is
neither a timestamp object, nor a Date, nor a string. -/
theorem verifyOTP_unparseable_string_valid (c : String)
    (hc : c.isEmpty = false) (now : Int) :
    verifyOTP c c (.strVal none) now = ⟨true, "OTP verified successfully"⟩ ∧
    (∀ exp : JSExpiry,
      (verifyOTP c c exp now).message = "Invalid OTP expiration" →
        exp = .otherVal) := by
  constructor
  · simp [verifyOTP, hc, normExpiry, jsDateGt]
  · intro exp hmsg
    cases exp with
    | timestamp ms =>
      simp only [verifyOTP, hc, Bool.or_self, Bool.false_eq_true, if_false,
        ne_eq, not_true_eq_false, normExpiry] at hmsg
      by_cases h : jsDateGt now (some ms) = true
      · simp [h] at hmsg
      · simp [eq_false_of_ne_true h] at hmsg
    | dateVal v =>
      simp only [verifyOTP, hc, Bool.or_self, Bool.false_eq_true, if_false,
        ne_eq, not_true_eq_false, normExpiry] at hmsg
      by_cases h : jsDateGt now v = true
      · simp [h] at hmsg
      · simp [eq_false_of_ne_true h] at hmsg
    | strVal p =>
      simp only [verifyOTP, hc, Bool.or_self, Bool.false_eq_true, if_false,
        ne_eq, not_true_eq_false, normExpiry] at hmsg
      by_cases h : jsDateGt now p = true
      · simp [h] at hmsg
      · simp [eq_false_of_ne_true h] at hmsg
    | otherVal => rfl

/-- Witness for C10: the correct code against a garbage expiry string is
accepted. -/
theorem verifyOTP_unparseable_string_valid_witness :
    verifyOTP "482913" "482913" (.strVal none) 0 =
      ⟨true, "OTP verified successfully"⟩ :=
  (verifyOTP_unparseable_string_valid "482913" (by decide) 0).1

/-- C7: with r the value of Math.random() (0 ≤ r < 1), the generated code
is in 100000..999999 (a 6-digit decimal number); the preimage of each
value k in that range is the half-open rational interval
[(k-100000)/900000, (k-100000+1)/900000), so all 900000 values have
preimages of equal length 1/900000 (uniformity); and the expiry is
exactly the generation instant plus 5 minutes, with no per-call
parameter. -/
theorem generateOTP_range_uniform_expiry :
    (∀ r : ℚ, 0 ≤ r → r < 1 →
      100000 ≤ generateOTPNum r ∧ generateOTPNum r ≤ 999999) ∧
    (∀ (k : ℤ) (r : ℚ),
      (generateOTPNum r = k ↔
        ((k : ℚ) - 100000) / 900000 ≤ r ∧
          r < ((k : ℚ) - 100000 + 1) / 900000)) ∧
    (∀ now : Int, getOTPExpiration now = now + 5 * 60 * 1000) := by
  refine ⟨?_, ?_, fun now => rfl⟩
  · intro r h0 h1
    constructor
    · apply Int.le_floor.mpr
      push_cast
      nlinarith
    · have hlt : generateOTPNum r < 1000000 := by
        apply Int.floor_lt.mpr
        push_cast
        nlinarith
      omega
  · intro k r
    unfold generateOTPNum
    rw [Int.floor_eq_iff]
    constructor
    · rintro ⟨ha, hb⟩
      constructor
      · rw [div_le_iff₀ (by norm_num : (0:ℚ) < 900000)]
        linarith
      · rw [lt_div_iff₀ (by norm_num : (0:ℚ) < 900000)]
        linarith
    · rintro ⟨ha, hb⟩
      rw [div_le_iff₀ (by norm_num : (0:ℚ) < 900000)] at ha
      rw [lt_div_iff₀ (by norm_num : (0:ℚ) < 900000)] at hb
      exact ⟨by linarith, by linarith⟩

/-- Witness for C7: at r = 1/2 the code is 550000, inside the range, its
preimage interval is [1/2, 450001/900000), and the expiry of an OTP
generated at epoch 0 is 300000 ms. -/
theorem generateOTP_range_uniform_expiry_witness :
    (100000 ≤ generateOTPNum (1/2) ∧ generateOTPNum (1/2) ≤ 999999) ∧
    (generateOTPNum (1/2) = 550000 ↔
      ((550000 : ℚ) - 100000) / 900000 ≤ 1/2 ∧
        (1/2 : ℚ) < ((550000 : ℚ) - 100000 + 1) / 900000) ∧
    getOTPExpiration 0 = 0 + 5 * 60 * 1000 := by
  refine ⟨generateOTP_range_uniform_expiry.1 (1/2) (by norm_num) (by norm_num),
    ?_, generateOTP_range_uniform_expiry.2.2 0⟩
  have h := generateOTP_range_uniform_expiry.2.1 550000 (1/2)
  exact_mod_cast h

open RoleHelper in
/-- C2 counterexample: a user whose globalRole is superadmin, and a
projectId with zero membership records in the store; getUserRoleInProject
returns none (null) for that pair, refuting that the role-in-project
lookup never returns null for a SuperAdmin.  (The function does not even
receive the user document, so it cannot short-circuit on globalRole.) -/
theorem getUserRoleInProject_superadmin_returns_null :
    isSuperAdmin (some ⟨some "superadmin", none⟩) = true ∧
    getUserRoleInProject (some "sa") (some "p1") (.ok []) = none := by
  constructor
  · rfl
  · rfl

open RoleHelper in
/-- C2 amended: the SuperAdmin short-circuit lives in isProjectAdmin and
hasAccessToProject — both answer admin-equivalent (true) for a SuperAdmin
on every truthy projectId, with no membership record required and no
store read consulted — while getUserRoleInProject itself performs no
SuperAdmin check and returns null whenever the membership query yields
no records, even for a SuperAdmin caller. -/
theorem superadmin_admin_equivalent (d : UserData)
    (hsa : isSuperAdmin (some d) = true) (pid : Option String)
    (hpid : jsTruthyStr pid = true) :
    isProjectAdmin (some d) pid = true ∧
    (∀ (uid : Option String) (db : Except StoreErr (List MembershipRec)),
      jsTruthyStr uid = true →
        hasAccessToProject uid pid (some d) db = true) ∧
    (∀ uid : Option String,
      getUserRoleInProject uid pid (.ok []) = none) := by
  refine ⟨?_, ?_, ?_⟩
  · simp [isProjectAdmin, hpid, hsa]
  · intro uid db huid
    simp [hasAccessToProject, hpid, huid, hsa]
  · intro uid
    by_cases huid : jsTruthyStr uid = true
    · simp only [getUserRoleInProject, hpid, huid, Bool.not_true,
        Bool.or_self, Bool.false_eq_true, if_false]
      rfl
    · simp [getUserRoleInProject, eq_false_of_ne_true huid]

open RoleHelper in
/-- Witness for the amended C2 at a concrete superadmin record, project
p1 and an empty store. -/
theorem superadmin_admin_equivalent_witness :
    isProjectAdmin (some ⟨some "superadmin", none⟩) (some "p1") = true ∧
    hasAccessToProject (some "u1") (some "p1")
      (some ⟨some "superadmin", none⟩) (.ok []) = true ∧
    getUserRoleInProject (some "u1") (some "p1") (.ok []) = none := by
  have h := superadmin_admin_equivalent ⟨some "superadmin", none⟩
    (by decide) (some "p1") (by decide)
  exact ⟨h.1, h.2.1 (some "u1") (.ok []) (by decide), h.2.2 (some "u1")⟩

open RoleHelper in
/-- C3 counterexample: at a concrete (userId, projectId), a failed store
read yields exactly the same returned value as a successful read that
finds no membership — null from getUserRoleInProject and false from
hasAccessToProject — so the caller cannot distinguish store I/O failure
from access denial. -/
theorem store_failure_indistinguishable_from_denial :
    getUserRoleInProject (some "u1") (some "p1") (.error .ioFailure) =
      getUserRoleInProject (some "u1") (some "p1") (.ok []) ∧
    hasAccessToProject (some "u1") (some "p1") none (.error .ioFailure) =
      hasAccessToProject (some "u1") (some "p1") none (.ok []) := by
  constructor
  · rfl
  · rfl

open RoleHelper in
/-- C3 amended: a store read failure is swallowed by the catch blocks:
getUserRoleInProject returns null and hasAccessToProject (for any caller
not short-circuited as SuperAdmin) returns false — the very values that
also mean no-membership / access denied — so no distinct error kind ever
reaches the caller. -/
theorem store_failure_swallowed (uid pid : Option String) (e : StoreErr)
    (ud : Option UserData) :
    getUserRoleInProject uid pid (.error e) = none ∧
    (isSuperAdmin ud = false →
      hasAccessToProject uid pid ud (.error e) = false) := by
  constructor
  · by_cases huid : (!jsTruthyStr uid || !jsTruthyStr pid) = true
    · simp [getUserRoleInProject, huid]
    · simp only [getUserRoleInProject, huid, Bool.false_eq_true, if_false]
      rfl
  · intro hsa
    by_cases huid : (!jsTruthyStr uid || !jsTruthyStr pid) = true
    · simp [hasAccessToProject, huid]
    · simp only [hasAccessToProject, huid, Bool.false_eq_true, if_false,
        hsa, Bool.and_false, if_false]
      rfl

open RoleHelper in
/-- Witness for the amended C3 at a concrete pair and a non-superadmin
caller. -/
theorem store_failure_swallowed_witness :
    getUserRoleInProject (some "u1") (some "p1") (.error .ioFailure) =
      none ∧
    hasAccessToProject (some "u1") (some "p1")
      (some ⟨some "user", none⟩) (.error .ioFailure) = false := by
  have h := store_failure_swallowed (some "u1") (some "p1") .ioFailure
    (some ⟨some "user", none⟩)
  exact ⟨h.1, h.2 (by decide)⟩

open ChatRoom in
/-- C6: for a non-channel group canSendMessages is true whatever the
user's role and memberships; for a channel it is true exactly when the
user is SuperAdmin or holds the project admin role in the group's
project (per the auth-context userProjects list). -/
theorem canSendMessages_spec (ups : Option (List RoleHelper.UPEntry))
    (ud : Option RoleHelper.UserData) (g : Group) :
    (g.isChannel = false → canSendMessages ups ud (some g) = true) ∧
    (g.isChannel = true →
      (canSendMessages ups ud (some g) = true ↔
        chatIsSuperAdmin ud = true ∨ chatIsProjectAdmin ups (some g) = true)) := by
  constructor
  · intro h
    simp [canSendMessages, h]
  · intro h
    simp only [canSendMessages, h, if_true, Bool.or_eq_true]
    tauto

open ChatRoom in
/-- Witness for C6: anyone may post in a non-channel group; a SuperAdmin
may post in a channel. -/
theorem canSendMessages_spec_witness :
    canSendMessages none none (some ⟨"p1", false⟩) = true ∧
    canSendMessages none (some ⟨some "superadmin", none⟩)
      (some ⟨"p1", true⟩) = true := by
  constructor
  · exact (canSendMessages_spec none none ⟨"p1", false⟩).1 rfl
  · exact ((canSendMessages_spec none (some ⟨some "superadmin", none⟩)
      ⟨"p1", true⟩).2 rfl).mpr (Or.inl (by decide))

namespace Approvals

/-- Reading back a keyed document after an in-place update. -/
theorem lookupDoc_updateDoc {α : Type} (l : List (String × α))
    (id : String) (f : α → α) :
    lookupDoc (updateDoc l id f) id = (lookupDoc l id).map f := by
  induction l with
  | nil => rfl
  | cons hd tl ih =>
    by_cases h : (hd.1 == id) = true
    · simp [updateDoc, lookupDoc, h]
    · simp only [updateDoc, List.map_cons, if_neg h] at *
      simp only [lookupDoc, h, Bool.false_eq_true, if_false]
      exact ih

/-- A point read after deleting every document with the given key finds
nothing. -/
theorem lookupDoc_filter_self {α : Type} (l : List (String × α))
    (id : String) :
    lookupDoc (l.filter (fun p => !(p.1 == id))) id = none := by
  induction l with
  | nil => rfl
  | cons hd tl ih =>
    by_cases h : (hd.1 == id) = true
    · simpa [List.filter_cons, h] using ih
    · simp only [List.filter_cons, h, Bool.not_false, if_true,
        Bool.false_eq_true]
      simp only [lookupDoc, h, Bool.false_eq_true, if_false]
      exact ih

/-- The qr-invitation update step leaves the users collection alone. -/
theorem removeFromPending_users (s : Store) (q i : String) :
    (removeFromPending s q i).users = s.users := by
  unfold removeFromPending
  split <;> rfl

/-- The qr-invitation update step leaves the memberships alone. -/
theorem removeFromPending_userProjects (s : Store) (q i : String) :
    (removeFromPending s q i).userProjects = s.userProjects := by
  unfold removeFromPending
  split <;> rfl

/-- Marking a user approved touches only the users collection. -/
theorem usersUpdateApprove_preserves (s : Store) (uid : String) (ts : Int)
    (s1 : Store) (h : usersUpdateApprove s uid ts = .ok s1) :
    s1.userProjects = s.userProjects ∧
      s1.qrInvitations = s.qrInvitations := by
  unfold usersUpdateApprove at h
  cases hl : lookupDoc s.users uid with
  | none => rw [hl] at h; cases h
  | some v =>
    rw [hl] at h
    cases h
    exact ⟨rfl, rfl⟩

/-- Effect of the shared qr-invitation update step on the invitation it
targets: the processed user's entries are dropped and isPending is
recomputed from the updated list. -/
theorem lookupDoc_removeFromPending (s : Store) (qid uid : String)
    (qr : QRRec) (h : lookupDoc s.qrInvitations qid = some qr) :
    lookupDoc (removeFromPending s qid uid).qrInvitations qid = some
      { qr with
        pendingSignups := qr.pendingSignups.filter
          (fun x => !(x.userId == uid)),
        isPending := decide ((qr.pendingSignups.filter
          (fun x => !(x.userId == uid))).length > 0) } := by
  unfold removeFromPending
  rw [h]
  simp [lookupDoc_updateDoc, h]

end Approvals

open Approvals in
/-- C1 counterexample: starting from the concrete pending store, the
first approve yields one active membership for (u1, p1) and a second
approve of the same entry succeeds again and yields two — approveUser
adds a membership unconditionally, so the second call is neither a no-op
nor bounded to one record. -/
theorem approve_twice_duplicates_membership :
    (approveUser s0ex uex 1).map
      (fun t => activeMembershipCount t "u1" "p1") = .ok 1 ∧
    ((approveUser s0ex uex 1).bind
      (fun t => approveUser t uex 2)).map
      (fun t => activeMembershipCount t "u1" "p1") = .ok 2 := by
  constructor
  · rfl
  · rfl

open Approvals in
/-- C1 amended: each successful approve of an entry with a truthy
projectId increments the number of active membership documents for the
(userId, projectId) pair by exactly one; invoked twice it therefore
leaves two records, not one, and idempotence is not enforced. -/
theorem approve_increments_active_membership (s : Store) (u : PendingUser)
    (ts : Int) (hu : (lookupDoc s.users u.id).isSome = true)
    (hp : jsTruthyStr u.projectId = true) :
    (approveUser s u ts).map
      (fun t => activeMembershipCount t u.id (u.projectId.getD "")) =
      .ok (activeMembershipCount s u.id (u.projectId.getD "") + 1) := by
  obtain ⟨ur, hur⟩ := Option.isSome_iff_exists.mp hu
  have hok : usersUpdateApprove s u.id ts = .ok
      { s with users := (updateDoc s.users u.id
        (fun v => { v with isApproved := true, approvedAt := some ts })) } := by
    unfold usersUpdateApprove
    rw [hur]
  simp only [approveUser, hok, hp, if_true, Except.map]
  congr 1
  rw [activeMembershipCount, activeMembershipCount,
    removeFromPending_userProjects]
  simp [List.filter_append]

open Approvals in
/-- Witness for the amended C1 at the concrete pending store. -/
theorem approve_increments_active_membership_witness :
    (approveUser s0ex uex 1).map
      (fun t => activeMembershipCount t "u1" "p1") =
      .ok (activeMembershipCount s0ex "u1" "p1" + 1) := by
  have h := approve_increments_active_membership s0ex uex 1 rfl rfl
  simpa using h

open Approvals in
/-- C8: when the invitation document exists, both a successful approve
and a reject leave it with pendingSignups equal to the old list minus
the processed user's entries and isPending recomputed as length > 0;
and any record whose isPending equals that recomputation satisfies
isPending == (pendingSignups non-empty). -/
theorem transitions_recompute_isPending (s : Store) (u : PendingUser)
    (ts : Int) (qr : QRRec)
    (hqr : lookupDoc s.qrInvitations u.qrId = some qr) :
    (∀ s2, approveUser s u ts = .ok s2 →
      lookupDoc s2.qrInvitations u.qrId = some
        { qr with
          pendingSignups := qr.pendingSignups.filter
            (fun x => !(x.userId == u.id)),
          isPending := decide ((qr.pendingSignups.filter
            (fun x => !(x.userId == u.id))).length > 0) }) ∧
    (lookupDoc (rejectUser s u).qrInvitations u.qrId = some
        { qr with
          pendingSignups := qr.pendingSignups.filter
            (fun x => !(x.userId == u.id)),
          isPending := decide ((qr.pendingSignups.filter
            (fun x => !(x.userId == u.id))).length > 0) }) ∧
    (∀ q2 : QRRec,
      q2.isPending = decide (q2.pendingSignups.length > 0) →
        (q2.isPending = true ↔ q2.pendingSignups ≠ [])) := by
  refine ⟨?_, ?_, ?_⟩
  · intro s2 h2
    unfold approveUser at h2
    cases hus : usersUpdateApprove s u.id ts with
    | error e => rw [hus] at h2; cases h2
    | ok s1 =>
      rw [hus] at h2
      cases h2
      have hpre := usersUpdateApprove_preserves s u.id ts s1 hus
      apply lookupDoc_removeFromPending
      by_cases hproj : jsTruthyStr u.projectId = true
      · simpa [hproj, hpre.2] using hqr
      · simpa [eq_false_of_ne_true hproj, hpre.2] using hqr
  · unfold rejectUser
    apply lookupDoc_removeFromPending
    exact hqr
  · intro q2 h
    rw [h]
    simp [List.length_pos]

open Approvals in
/-- Witness for C8 at the concrete store: after the approve (whose
result is s1ex) and after the reject, invitation qr1 carries an empty
pending list and isPending false. -/
theorem transitions_recompute_isPending_witness :
    lookupDoc s1ex.qrInvitations "qr1" = some ⟨some "p1", [], false⟩ ∧
    lookupDoc (rejectUser s0ex uex).qrInvitations "qr1" =
      some ⟨some "p1", [], false⟩ := by
  have h := transitions_recompute_isPending s0ex uex 1
    ⟨some "p1", [⟨"u1"⟩], true⟩ rfl
  constructor
  · have h1 := h.1 s1ex rfl
    simpa using h1
  · simpa using h.2.1

open Approvals in
/-- C9: after rejectUser hard-deletes the user document, any approve
attempt for the same user fails with the not-found store error — the
users update rejects before the membership add and the qr update run, so
nothing is marked approved and no membership is created. -/
theorem reject_then_approve_not_found (s : Store) (u : PendingUser)
    (ts : Int) :
    approveUser (rejectUser s u) u ts = .error .notFound := by
  have hlook : lookupDoc (rejectUser s u).users u.id = none := by
    have husers : (rejectUser s u).users =
        s.users.filter (fun p => !(p.1 == u.id)) := by
      unfold rejectUser
      rw [removeFromPending_users]
    rw [husers]
    exact lookupDoc_filter_self s.users u.id
  unfold approveUser usersUpdateApprove
  rw [hlook]

end ChatApp
